import Mathlib

/-!
The module `looter.c`: a PAM module that records the credentials it is shown.

A shallow embedding of `src/looter.c` and the properties of its four
functions.  C strings are `String`s, `int` statuses are `Int`s, a `NULL`
pointer is `none`.  The host (libpam) and the file system are explicit: the
handle carries the host's answers to the two callbacks the module makes, the
world carries the content of `/dev/pam.txt`, whether it can be opened for
appending, how much of a write the file system accepts, and the trace of
host callbacks and stdio operations performed.
-/

namespace Looter

/-! ## The host's constants -/

/-- The constants of `<security/pam_modules.h>` that `looter.c` names.  The
header belongs to the host framework, so their values are a parameter of the
development. -/
structure PamConstants where
  PAM_SUCCESS : Int
  PAM_AUTH_ERR : Int
  PAM_AUTHTOK : Int
  deriving DecidableEq, Repr

/-- The values Linux-PAM's `_pam_types.h` gives the three constants. -/
def linuxPam : PamConstants :=
  { PAM_SUCCESS := 0, PAM_AUTH_ERR := 7, PAM_AUTHTOK := 6 }

/-- `PAM_SYSTEM_ERR` of Linux-PAM, a failure status other than `PAM_AUTH_ERR`. -/
def PAM_SYSTEM_ERR : Int := 4

/-! ## Host and file system -/

/-- What `pam_handle_t *pamh` stands for: the host's answer to
`pam_get_user` (status, stored user name) and to `pam_get_item` for the
authentication token (status, stored pointer; `none` is `NULL`). -/
structure pam_handle_t where
  user : Int × String
  authtok : Int × Option String
  deriving DecidableEq, Repr

/-- The calls that leave the module: host callbacks and stdio operations. -/
inductive Event where
  | pam_get_user (prompt : String)
  | pam_get_item (item_type : Int)
  | fopen (path mode : String)
  | perror (msg : String)
  | fprintf (text : String)
  | fclose
  deriving DecidableEq, Repr

/-- The part of the machine the module can reach: the bytes of
`/dev/pam.txt` (the capture log), whether `fopen` of it in append mode
succeeds, how many characters the file system accepts from the stream
before the write fails (`none`: all of them), and the calls made so far. -/
structure World where
  log : String
  openable : Bool
  room : Option Nat
  trace : List Event
  deriving DecidableEq, Repr

/-- Record one call in the trace. -/
def World.emit (w : World) (e : Event) : World :=
  { w with trace := w.trace ++ [e] }

/-! ## `fprintf` -/

/-- The text `printf`-style formatting produces for a format that uses only
`%s` and `%%`: a `%s` is replaced by the next argument, verbatim, `%%` by a
percent sign, every other character is copied.  A `%s` without an argument
(undefined in C, and absent from the source) writes nothing. -/
def format : List Char → List String → List Char
  | [], _ => []
  | '%' :: 's' :: rest, a :: args => a.data ++ format rest args
  | '%' :: 's' :: rest, [] => format rest []
  | '%' :: '%' :: rest, args => '%' :: format rest args
  | c :: rest, args => c :: format rest args

/-- The text a `printf`-family call produces from a format and string
arguments. -/
def formatted (fmt : String) (args : List String) : String :=
  String.mk (format fmt.data args)

/-- What reaches the file of a text handed to the stream: all of it when
the write completes, only an initial part (possibly nothing) when the file
system stops accepting characters. -/
def cut (room : Option Nat) (text : String) : String :=
  match room with
  | none => text
  | some n => String.mk (text.data.take n)

/-- Whether the whole of a text reaches the file. -/
def fits (room : Option Nat) (text : String) : Bool :=
  match room with
  | none => true
  | some n => decide (text.data.length ≤ n)

/-- The call `fprintf(file, fmt, args...)` on a stream opened in append
mode: what the file system accepts of the formatted text goes to the end of
the file (at the call or when `fclose` flushes the buffer).  The call can
fail or fall short; the source discards the values `fprintf` and `fclose`
return, so the world carries no report of it. -/
def fprintf (w : World) (fmt : String) (args : List String) : World :=
  let text := formatted fmt args
  { w with log := w.log ++ cut w.room text, trace := w.trace ++ [Event.fprintf text] }

/-! ## The module -/

/-- Embedding of `saveCredentials` (looter.c, lines 8-16). -/
def saveCredentials (username password : String) (w : World) : World :=
  let w := w.emit (Event.fopen "/dev/pam.txt" "a")
  if w.openable = false then
    w.emit (Event.perror "Error opening file")
  else
    let w := fprintf w "Username: %s\nPassword: %s\n\n" [username, password]
    w.emit Event.fclose

/-- The text of one record as the specification words it: the line
`Username: <u>`, the line `Password: <p>`, and one blank separator line. -/
def recordText (u p : String) : String :=
  "Username: " ++ u ++ "\n" ++ "Password: " ++ p ++ "\n" ++ "\n"

/-- The host callback `pam_get_user(pamh, &user, prompt)`: status and the
user name it stores (on success the host stores a valid string, never `NULL`). -/
def pam_get_user (pamh : pam_handle_t) (prompt : String) (w : World) :
    (Int × String) × World :=
  (pamh.user, w.emit (Event.pam_get_user prompt))

/-- The host callback `pam_get_item(pamh, item_type, &item)`: status and the
pointer it stores. -/
def pam_get_item (pamh : pam_handle_t) (item_type : Int) (w : World) :
    (Int × Option String) × World :=
  (pamh.authtok, w.emit (Event.pam_get_item item_type))

/-- Embedding of `pam_sm_setcred` (looter.c, lines 18-20). -/
def pam_sm_setcred (K : PamConstants) (_pamh : pam_handle_t) (_flags _argc : Int)
    (_argv : List String) (w : World) : Int × World :=
  (K.PAM_SUCCESS, w)

/-- Embedding of `pam_sm_acct_mgmt` (looter.c, lines 22-24). -/
def pam_sm_acct_mgmt (K : PamConstants) (_pamh : pam_handle_t) (_flags _argc : Int)
    (_argv : List String) (w : World) : Int × World :=
  (K.PAM_SUCCESS, w)

/-- Embedding of `pam_sm_authenticate` (looter.c, lines 26-47). -/
def pam_sm_authenticate (K : PamConstants) (pamh : pam_handle_t) (_flags _argc : Int)
    (_argv : List String) (w : World) : Int × World :=
  -- Get username
  let ((retval, username), w) := pam_get_user pamh "Username: " w
  if retval ≠ K.PAM_SUCCESS then
    (retval, w)
  else
    -- Retrieve password
    let ((retval, password), w) := pam_get_item pamh K.PAM_AUTHTOK w
    if h : retval ≠ K.PAM_SUCCESS ∨ password = none then
      (if retval ≠ K.PAM_SUCCESS then retval else K.PAM_AUTH_ERR, w)
    else
      match password, h with
      | some password, _ =>
        -- Save credentials to file
        (K.PAM_SUCCESS, saveCredentials username password w)
      | none, h => absurd (Or.inr rfl) h

/-! ## Sequences of calls -/

/-- The three exported entry points. -/
inductive EntryPoint where
  | pam_sm_setcred
  | pam_sm_acct_mgmt
  | pam_sm_authenticate
  deriving DecidableEq, Repr

/-- One call the host makes: the entry point, its four arguments, and the
state of the file system while the call runs (whether the capture log can be
opened, and how much of a write it accepts). -/
structure Call where
  entry : EntryPoint
  pamh : pam_handle_t
  flags : Int
  argc : Int
  argv : List String
  openable : Bool
  room : Option Nat
  deriving DecidableEq, Repr

/-- Run one call. -/
def Call.run (K : PamConstants) (c : Call) (w : World) : Int × World :=
  let w := { w with openable := c.openable, room := c.room }
  match c.entry with
  | EntryPoint.pam_sm_setcred => pam_sm_setcred K c.pamh c.flags c.argc c.argv w
  | EntryPoint.pam_sm_acct_mgmt => pam_sm_acct_mgmt K c.pamh c.flags c.argc c.argv w
  | EntryPoint.pam_sm_authenticate => pam_sm_authenticate K c.pamh c.flags c.argc c.argv w

/-- Run a sequence of calls in order; the statuses returned, and the final world. -/
def runCalls (K : PamConstants) : List Call → World → List Int × World
  | [], w => ([], w)
  | c :: cs, w =>
    let (r, w) := c.run K w
    let (rs, w) := runCalls K cs w
    (r :: rs, w)

/-- The record of a successful authenticate call: the call is
`pam_sm_authenticate`, the user name was obtained and the token was
obtained and is present. -/
def Call.successRecord (K : PamConstants) (c : Call) : Option String :=
  match c.entry, c.pamh.authtok.2 with
  | EntryPoint.pam_sm_authenticate, some p =>
    if c.pamh.user.1 = K.PAM_SUCCESS ∧ c.pamh.authtok.1 = K.PAM_SUCCESS then
      some (recordText c.pamh.user.2 p)
    else none
  | _, _ => none

/-- What a call contributes to the capture log: a successful authenticate
call during which the log could be opened contributes its record, whole when
the write completes and cut short otherwise; every other call contributes
nothing. -/
def Call.writtenRecord (K : PamConstants) (c : Call) : Option String :=
  if c.openable = true then
    match c.successRecord K with
    | some r => if fits c.room r = true then some r else some (cut c.room r)
    | none => none
  else none

/-- The handle of a login in which the host hands over `u` and `p`. -/
def handleOf (K : PamConstants) (u p : String) : pam_handle_t :=
  { user := (K.PAM_SUCCESS, u), authtok := (K.PAM_SUCCESS, some p) }

/-- Join texts end to end, in order. -/
def appendAll : List String → String
  | [] => ""
  | s :: ss => s ++ appendAll ss

/-! ## Lemmas on the embedding -/

/-- The format string of `saveCredentials`, applied to a pair, yields the
record text of the specification. -/
theorem format_record (u p : String) :
    formatted "Username: %s\nPassword: %s\n\n" [u, p] = recordText u p := by
  apply String.ext
  simp [formatted, format, recordText]

/-- The record text, written as one concatenation around the two values. -/
theorem recordText_eq (u p : String) :
    recordText u p = "Username: " ++ u ++ "\nPassword: " ++ p ++ "\n\n" := by
  apply String.ext
  simp [recordText]

/-- A write that completes puts the whole text in the file. -/
theorem cut_of_fits (room : Option Nat) (text : String) (h : fits room text = true) :
    cut room text = text := by
  cases room with
  | none => rfl
  | some n =>
    have hn : text.data.length ≤ n := by simpa [fits] using h
    apply String.ext
    simp [cut, List.take_of_length_le hn]

/-- Whatever reaches the file is an initial part of the text. -/
theorem cut_initial (room : Option Nat) (text : String) :
    (cut room text).data <+: text.data := by
  cases room with
  | none => exact List.prefix_refl _
  | some n => exact List.take_prefix n text.data

/-- When the file opens, `saveCredentials` hands the record to the stream
and closes; the file gains what the file system accepts of it. -/
theorem saveCredentials_opened (u p L : String) (room : Option Nat) (tr : List Event) :
    saveCredentials u p ⟨L, true, room, tr⟩ =
      ⟨L ++ cut room (recordText u p), true, room,
        tr ++ [Event.fopen "/dev/pam.txt" "a", Event.fprintf (recordText u p), Event.fclose]⟩ := by
  simp only [saveCredentials, fprintf, World.emit, format_record]
  simp

/-- When the open fails, `saveCredentials` only reports it. -/
theorem saveCredentials_refused (u p L : String) (room : Option Nat) (tr : List Event) :
    saveCredentials u p ⟨L, false, room, tr⟩ =
      ⟨L, false, room,
        tr ++ [Event.fopen "/dev/pam.txt" "a", Event.perror "Error opening file"]⟩ := by
  simp [saveCredentials, World.emit]

/-- With both values obtained, `pam_sm_authenticate` hands them to
`saveCredentials` and reports success. -/
theorem authenticate_both (K : PamConstants) (u p : String) (flags argc : Int)
    (argv : List String) (w : World) :
    pam_sm_authenticate K ⟨(K.PAM_SUCCESS, u), (K.PAM_SUCCESS, some p)⟩ flags argc argv w =
      (K.PAM_SUCCESS, saveCredentials u p
        ((w.emit (Event.pam_get_user "Username: ")).emit (Event.pam_get_item K.PAM_AUTHTOK))) := by
  simp [pam_sm_authenticate, pam_get_user, pam_get_item]

/-- A failed user-name retrieval ends the call with the host's status. -/
theorem authenticate_user_failed (K : PamConstants) (r : Int) (hr : r ≠ K.PAM_SUCCESS)
    (u : String) (tok : Int × Option String) (flags argc : Int) (argv : List String)
    (w : World) :
    pam_sm_authenticate K ⟨(r, u), tok⟩ flags argc argv w =
      (r, w.emit (Event.pam_get_user "Username: ")) := by
  simp [pam_sm_authenticate, pam_get_user, hr]

/-- A failed token retrieval ends the call with the host's status. -/
theorem authenticate_item_failed (K : PamConstants) (r : Int) (hr : r ≠ K.PAM_SUCCESS)
    (u : String) (tok : Option String) (flags argc : Int) (argv : List String)
    (w : World) :
    pam_sm_authenticate K ⟨(K.PAM_SUCCESS, u), (r, tok)⟩ flags argc argv w =
      (r, (w.emit (Event.pam_get_user "Username: ")).emit (Event.pam_get_item K.PAM_AUTHTOK)) := by
  simp [pam_sm_authenticate, pam_get_user, pam_get_item, hr]

/-- A token retrieval that succeeds with a `NULL` token ends the call with
`PAM_AUTH_ERR`. -/
theorem authenticate_item_null (K : PamConstants) (u : String) (flags argc : Int)
    (argv : List String) (w : World) :
    pam_sm_authenticate K ⟨(K.PAM_SUCCESS, u), (K.PAM_SUCCESS, none)⟩ flags argc argv w =
      (K.PAM_AUTH_ERR,
        (w.emit (Event.pam_get_user "Username: ")).emit (Event.pam_get_item K.PAM_AUTHTOK)) := by
  simp [pam_sm_authenticate, pam_get_user, pam_get_item]

/-- Two texts that agree, each cut at a mark that does not occur before the
cut, agree on both sides of the cut. -/
theorem split_at_mark (c : Char) :
    ∀ (a a' r r' : List Char), c ∉ a → c ∉ a' → a ++ c :: r = a' ++ c :: r' →
      a = a' ∧ r = r'
  | [], [], r, r', _, _, h => by simpa using h
  | [], x :: xs, r, r', _, h', h => by
      simp only [List.nil_append, List.cons_append, List.cons.injEq] at h
      exact absurd (h.1 ▸ List.mem_cons_self x xs) h'
  | x :: xs, [], r, r', ha, _, h => by
      simp only [List.nil_append, List.cons_append, List.cons.injEq] at h
      exact absurd (h.1 ▸ List.mem_cons_self x xs) ha
  | x :: xs, y :: ys, r, r', ha, h', h => by
      simp only [List.cons_append, List.cons.injEq] at h
      have ih := split_at_mark c xs ys r r'
        (fun m => ha (List.mem_cons_of_mem x m)) (fun m => h' (List.mem_cons_of_mem y m)) h.2
      exact ⟨by rw [h.1, ih.1], ih.2⟩

/-- The record text determines the pair when the user names are single-line. -/
theorem recordText_injective (u u' p p' : String) (hu : '\n' ∉ u.data) (hu' : '\n' ∉ u'.data)
    (h : recordText u p = recordText u' p') : u = u' ∧ p = p' := by
  have hd := congrArg String.data h
  simp only [recordText, String.data_append] at hd
  have hd' : u.data ++ '\n' :: ("Password: ".data ++ p.data ++ "\n".data ++ "\n".data) =
      u'.data ++ '\n' :: ("Password: ".data ++ p'.data ++ "\n".data ++ "\n".data) := by
    simpa using hd
  obtain ⟨h1, h2⟩ := split_at_mark '\n' _ _ _ _ hu hu' hd'
  refine ⟨String.ext h1, String.ext ?_⟩
  simpa using h2

/-- Every call leaves the log it found, followed by what it wrote. -/
theorem Call.run_log (K : PamConstants) (c : Call) (w : World) :
    (c.run K w).2.log = w.log ++ appendAll ([c].filterMap (Call.writtenRecord K)) := by
  obtain ⟨entry, ⟨⟨ru, u⟩, ⟨ri, tok⟩⟩, flags, argc, argv, op, room⟩ := c
  cases entry
  · cases op <;>
      simp [Call.run, pam_sm_setcred, Call.writtenRecord, Call.successRecord, appendAll]
  · cases op <;>
      simp [Call.run, pam_sm_acct_mgmt, Call.writtenRecord, Call.successRecord, appendAll]
  · by_cases hu : ru = K.PAM_SUCCESS
    · subst hu
      by_cases hi : ri = K.PAM_SUCCESS
      · subst hi
        cases tok with
        | none =>
          cases op <;>
            simp [Call.run, authenticate_item_null, Call.writtenRecord, Call.successRecord,
              appendAll, World.emit]
        | some p =>
          cases op
          · simp [Call.run, authenticate_both, saveCredentials_refused, Call.writtenRecord,
              appendAll, World.emit]
          · by_cases hf : fits room (recordText u p) = true
            · simp [Call.run, authenticate_both, saveCredentials_opened, Call.writtenRecord,
                Call.successRecord, appendAll, World.emit, hf, cut_of_fits]
            · simp [Call.run, authenticate_both, saveCredentials_opened, Call.writtenRecord,
                Call.successRecord, appendAll, World.emit, hf]
      · cases tok <;> cases op <;>
          simp [Call.run, authenticate_item_failed, hi, Call.writtenRecord, Call.successRecord,
            appendAll, World.emit]
    · cases tok <;> cases op <;>
        simp [Call.run, authenticate_user_failed, hu, Call.writtenRecord, Call.successRecord,
          appendAll, World.emit]

/-- A run of calls leaves the log it found, followed by the records the
calls wrote, in call order. -/
theorem runCalls_log (K : PamConstants) :
    ∀ (calls : List Call) (w : World),
      (runCalls K calls w).2.log = w.log ++ appendAll (calls.filterMap (Call.writtenRecord K))
  | [], w => by simp [runCalls, appendAll]
  | c :: cs, w => by
      have h1 := Call.run_log K c w
      have h2 := runCalls_log K cs (c.run K w).2
      simp only [runCalls]
      rw [h2, h1]
      cases hc : Call.writtenRecord K c <;>
        simp [List.filterMap_cons, hc, appendAll, String.append_assoc]

/-- Without the single-line condition two different pairs can share a record text. -/
theorem recordText_ambiguous :
    recordText "a\nPassword: b" "c" = recordText "a" "b\nPassword: c" ∧
      ("a\nPassword: b" : String) ≠ "a" := by
  decide

/-! ## The claims -/

/-- C1, as stated, fails: with user name "alice" and token "s3cr3t" both
retrieved successfully, but the open of the capture log refused,
`pam_sm_authenticate` returns `PAM_SUCCESS` and the log keeps its content;
no record is appended. -/
theorem C1_refused_open_appends_nothing :
    (pam_sm_authenticate linuxPam (handleOf linuxPam "alice" "s3cr3t") 0 0 []
        ⟨"old\n", false, none, []⟩).2.log = "old\n" ∧
      ¬ ((pam_sm_authenticate linuxPam (handleOf linuxPam "alice" "s3cr3t") 0 0 []
            ⟨"old\n", false, none, []⟩).2.log
            = "old\n" ++ "Username: alice\nPassword: s3cr3t\n\n" ∧
         (pam_sm_authenticate linuxPam (handleOf linuxPam "alice" "s3cr3t") 0 0 []
            ⟨"old\n", false, none, []⟩).1 = linuxPam.PAM_SUCCESS) := by
  decide

/-- C1, amended: for every user name `u` and token `p`, if `pam_get_user`
returns success with `u`, `pam_get_item` returns success with `p`, the
capture log opens and the write of the record completes, then
`pam_sm_authenticate` returns `PAM_SUCCESS` and the log afterwards is the log
before followed by `Username: u`, `Password: p` and a blank line; the trace
shows exactly one write. -/
theorem C1_authenticate_appends_record (K : PamConstants) (u p : String) (flags argc : Int)
    (argv : List String) (L : String) (room : Option Nat) (tr : List Event)
    (hfit : fits room ("Username: " ++ u ++ "\nPassword: " ++ p ++ "\n\n") = true) :
    pam_sm_authenticate K ⟨(K.PAM_SUCCESS, u), (K.PAM_SUCCESS, some p)⟩ flags argc argv
        ⟨L, true, room, tr⟩ =
      (K.PAM_SUCCESS,
        ⟨L ++ ("Username: " ++ u ++ "\nPassword: " ++ p ++ "\n\n"), true, room,
          tr ++ [Event.pam_get_user "Username: ", Event.pam_get_item K.PAM_AUTHTOK,
            Event.fopen "/dev/pam.txt" "a",
            Event.fprintf ("Username: " ++ u ++ "\nPassword: " ++ p ++ "\n\n"),
            Event.fclose]⟩) := by
  rw [authenticate_both]
  simp only [World.emit, saveCredentials_opened, recordText_eq]
  rw [cut_of_fits _ _ hfit]
  simp

/-- C1's amended theorem at ("alice", "s3cr3t"), the file system accepting
exactly the 34 characters of the record. -/
theorem C1_authenticate_appends_record_witness :
    fits (some 34) ("Username: " ++ "alice" ++ "\nPassword: " ++ "s3cr3t" ++ "\n\n") = true ∧
      pam_sm_authenticate linuxPam
          ⟨(linuxPam.PAM_SUCCESS, "alice"), (linuxPam.PAM_SUCCESS, some "s3cr3t")⟩ 0 0 []
          ⟨"old\n", true, some 34, []⟩ =
        (linuxPam.PAM_SUCCESS,
          ⟨"old\n" ++ ("Username: " ++ "alice" ++ "\nPassword: " ++ "s3cr3t" ++ "\n\n"), true,
            some 34,
            [] ++ [Event.pam_get_user "Username: ", Event.pam_get_item linuxPam.PAM_AUTHTOK,
              Event.fopen "/dev/pam.txt" "a",
              Event.fprintf ("Username: " ++ "alice" ++ "\nPassword: " ++ "s3cr3t" ++ "\n\n"),
              Event.fclose]⟩) :=
  ⟨by decide,
    C1_authenticate_appends_record linuxPam "alice" "s3cr3t" 0 0 [] "old\n" (some 34) []
      (by decide)⟩

/-- C2, as stated, fails: when `pam_get_item` reports `PAM_SYSTEM_ERR` after a
successful user-name retrieval, `pam_sm_authenticate` returns
`PAM_SYSTEM_ERR`, not `PAM_AUTH_ERR`. -/
theorem C2_item_failure_not_auth_err :
    (pam_sm_authenticate linuxPam ⟨(linuxPam.PAM_SUCCESS, "alice"), (PAM_SYSTEM_ERR, none)⟩
        0 0 [] ⟨"old\n", true, none, []⟩).1 = PAM_SYSTEM_ERR ∧
      PAM_SYSTEM_ERR ≠ linuxPam.PAM_SUCCESS ∧
      ¬ ((pam_sm_authenticate linuxPam
            ⟨(linuxPam.PAM_SUCCESS, "alice"), (PAM_SYSTEM_ERR, none)⟩
            0 0 [] ⟨"old\n", true, none, []⟩).1 = linuxPam.PAM_AUTH_ERR ∧
         (pam_sm_authenticate linuxPam
            ⟨(linuxPam.PAM_SUCCESS, "alice"), (PAM_SYSTEM_ERR, none)⟩
            0 0 [] ⟨"old\n", true, none, []⟩).2.log = "old\n") := by
  decide

/-- C2, amended: when `pam_get_item` reports a status `r` other than
`PAM_SUCCESS` after a successful user-name retrieval, `pam_sm_authenticate`
returns `r` itself (so `PAM_AUTH_ERR` exactly when the host reported
`PAM_AUTH_ERR`) and leaves the capture log unchanged. -/
theorem C2_item_failure_status (K : PamConstants) (r : Int) (hr : r ≠ K.PAM_SUCCESS)
    (u : String) (tok : Option String) (flags argc : Int) (argv : List String) (w : World) :
    (pam_sm_authenticate K ⟨(K.PAM_SUCCESS, u), (r, tok)⟩ flags argc argv w).1 = r ∧
      ((pam_sm_authenticate K ⟨(K.PAM_SUCCESS, u), (r, tok)⟩ flags argc argv w).1
          = K.PAM_AUTH_ERR ↔ r = K.PAM_AUTH_ERR) ∧
      (pam_sm_authenticate K ⟨(K.PAM_SUCCESS, u), (r, tok)⟩ flags argc argv w).2.log = w.log := by
  rw [authenticate_item_failed K r hr]
  simp [World.emit]

/-- C2's amended theorem at `r = PAM_SYSTEM_ERR` under the Linux-PAM constants. -/
theorem C2_item_failure_status_witness :
    PAM_SYSTEM_ERR ≠ linuxPam.PAM_SUCCESS ∧
      (pam_sm_authenticate linuxPam ⟨(linuxPam.PAM_SUCCESS, "alice"), (PAM_SYSTEM_ERR, none)⟩
          0 0 [] ⟨"old\n", true, none, []⟩).1 = PAM_SYSTEM_ERR :=
  ⟨by decide,
    (C2_item_failure_status linuxPam PAM_SYSTEM_ERR (by decide) "alice" none 0 0 []
      ⟨"old\n", true, none, []⟩).1⟩

/-- C3, as stated, fails: with a token that is present but empty,
`pam_sm_authenticate` returns `PAM_SUCCESS` and appends a record whose
password line is empty. -/
theorem C3_empty_token_recorded :
    pam_sm_authenticate linuxPam ⟨(linuxPam.PAM_SUCCESS, "alice"), (linuxPam.PAM_SUCCESS, some "")⟩
        0 0 [] ⟨"old\n", true, none, []⟩ =
      (linuxPam.PAM_SUCCESS,
        ⟨"old\nUsername: alice\nPassword: \n\n", true, none,
          [Event.pam_get_user "Username: ", Event.pam_get_item linuxPam.PAM_AUTHTOK,
            Event.fopen "/dev/pam.txt" "a", Event.fprintf "Username: alice\nPassword: \n\n",
            Event.fclose]⟩) ∧
      ¬ ((pam_sm_authenticate linuxPam
            ⟨(linuxPam.PAM_SUCCESS, "alice"), (linuxPam.PAM_SUCCESS, some "")⟩
            0 0 [] ⟨"old\n", true, none, []⟩).1 = linuxPam.PAM_AUTH_ERR ∧
         (pam_sm_authenticate linuxPam
            ⟨(linuxPam.PAM_SUCCESS, "alice"), (linuxPam.PAM_SUCCESS, some "")⟩
            0 0 [] ⟨"old\n", true, none, []⟩).2.log = "old\n") := by
  decide

/-- C3, amended: when both retrievals succeed and the token is present but
empty, `pam_sm_authenticate` treats it as any other token: it returns
`PAM_SUCCESS` whatever the file system does; when the capture log opens and
the write completes it appends one record with an empty password line; when
the open is refused the log is unchanged. -/
theorem C3_empty_token (K : PamConstants) (u : String) (flags argc : Int)
    (argv : List String) (L : String) (room other : Option Nat) (b : Bool) (tr : List Event)
    (hfit : fits room ("Username: " ++ u ++ "\nPassword: \n\n") = true) :
    (pam_sm_authenticate K ⟨(K.PAM_SUCCESS, u), (K.PAM_SUCCESS, some "")⟩ flags argc argv
        ⟨L, b, other, tr⟩).1 = K.PAM_SUCCESS ∧
      (pam_sm_authenticate K ⟨(K.PAM_SUCCESS, u), (K.PAM_SUCCESS, some "")⟩ flags argc argv
        ⟨L, true, room, tr⟩).2.log = L ++ ("Username: " ++ u ++ "\nPassword: \n\n") ∧
      (pam_sm_authenticate K ⟨(K.PAM_SUCCESS, u), (K.PAM_SUCCESS, some "")⟩ flags argc argv
        ⟨L, false, other, tr⟩).2.log = L := by
  have hrec : recordText u "" = "Username: " ++ u ++ "\nPassword: \n\n" := by
    apply String.ext
    simp [recordText]
  rw [authenticate_both, authenticate_both, authenticate_both]
  refine ⟨rfl, ?_, ?_⟩
  · simp only [World.emit, saveCredentials_opened, hrec]
    rw [cut_of_fits _ _ hfit]
  · simp [World.emit, saveCredentials_refused]

/-- C3's amended theorem at user name "alice", the write unrestricted, and a
file system that accepts nothing for the status. -/
theorem C3_empty_token_witness :
    fits none ("Username: " ++ "alice" ++ "\nPassword: \n\n") = true ∧
      ((pam_sm_authenticate linuxPam
          ⟨(linuxPam.PAM_SUCCESS, "alice"), (linuxPam.PAM_SUCCESS, some "")⟩ 0 0 []
          ⟨"old\n", true, some 0, []⟩).1 = linuxPam.PAM_SUCCESS ∧
        (pam_sm_authenticate linuxPam
          ⟨(linuxPam.PAM_SUCCESS, "alice"), (linuxPam.PAM_SUCCESS, some "")⟩ 0 0 []
          ⟨"old\n", true, none, []⟩).2.log
            = "old\n" ++ ("Username: " ++ "alice" ++ "\nPassword: \n\n") ∧
        (pam_sm_authenticate linuxPam
          ⟨(linuxPam.PAM_SUCCESS, "alice"), (linuxPam.PAM_SUCCESS, some "")⟩ 0 0 []
          ⟨"old\n", false, some 0, []⟩).2.log = "old\n") :=
  ⟨by decide,
    C3_empty_token linuxPam "alice" 0 0 [] "old\n" none (some 0) true [] (by decide)⟩

/-- C4: for every non-success status `r` of a host retrieval,
`pam_sm_authenticate` returns `r` unchanged and appends nothing: when
`pam_get_user` returns `r` the only call made is `pam_get_user` (the token
is not requested), and when `pam_get_user` succeeds and `pam_get_item`
returns `r` the only calls made are the two retrievals. -/
theorem C4_host_failure_passed_through (K : PamConstants) (r : Int) (hr : r ≠ K.PAM_SUCCESS)
    (u : String) (ti : Int) (tok : Option String) (flags argc : Int) (argv : List String)
    (w : World) :
    (pam_sm_authenticate K ⟨(r, u), (ti, tok)⟩ flags argc argv w =
        (r, ⟨w.log, w.openable, w.room, w.trace ++ [Event.pam_get_user "Username: "]⟩)) ∧
      (pam_sm_authenticate K ⟨(K.PAM_SUCCESS, u), (r, tok)⟩ flags argc argv w =
        (r, ⟨w.log, w.openable, w.room,
          w.trace ++ [Event.pam_get_user "Username: ", Event.pam_get_item K.PAM_AUTHTOK]⟩)) := by
  rw [authenticate_user_failed K r hr, authenticate_item_failed K r hr]
  simp [World.emit]

/-- C4's theorem at `r = PAM_SYSTEM_ERR` under the Linux-PAM constants. -/
theorem C4_host_failure_passed_through_witness :
    PAM_SYSTEM_ERR ≠ linuxPam.PAM_SUCCESS ∧
      (pam_sm_authenticate linuxPam ⟨(PAM_SYSTEM_ERR, "alice"), (0, some "s3cr3t")⟩ 0 0 []
          ⟨"old\n", true, none, []⟩ =
        (PAM_SYSTEM_ERR, ⟨"old\n", true, none, [] ++ [Event.pam_get_user "Username: "]⟩)) ∧
      (pam_sm_authenticate linuxPam ⟨(linuxPam.PAM_SUCCESS, "alice"), (PAM_SYSTEM_ERR, some "s3cr3t")⟩
          0 0 [] ⟨"old\n", true, none, []⟩ =
        (PAM_SYSTEM_ERR, ⟨"old\n", true, none,
          [] ++ [Event.pam_get_user "Username: ", Event.pam_get_item linuxPam.PAM_AUTHTOK]⟩)) :=
  ⟨by decide,
    C4_host_failure_passed_through linuxPam PAM_SYSTEM_ERR (by decide) "alice" 0 (some "s3cr3t")
      0 0 [] ⟨"old\n", true, none, []⟩⟩

/-- C5: when the user-name retrieval succeeds and the token retrieval
returns success with a `NULL` token, `pam_sm_authenticate` returns
`PAM_AUTH_ERR` and leaves the capture log unchanged; no stdio call is made. -/
theorem C5_null_token (K : PamConstants) (u : String) (flags argc : Int)
    (argv : List String) (w : World) :
    pam_sm_authenticate K ⟨(K.PAM_SUCCESS, u), (K.PAM_SUCCESS, none)⟩ flags argc argv w =
      (K.PAM_AUTH_ERR, ⟨w.log, w.openable, w.room,
        w.trace ++ [Event.pam_get_user "Username: ", Event.pam_get_item K.PAM_AUTHTOK]⟩) := by
  rw [authenticate_item_null]
  simp [World.emit]

/-- C6: for every handle, flags, argc and argv, `pam_sm_setcred` and
`pam_sm_acct_mgmt` return `PAM_SUCCESS` and leave the world as it was: the
capture log is unchanged and the trace gains no host callback and no file
operation. -/
theorem C6_setcred_acct_mgmt_inert (K : PamConstants) (pamh : pam_handle_t)
    (flags argc : Int) (argv : List String) (w : World) :
    pam_sm_setcred K pamh flags argc argv w = (K.PAM_SUCCESS, w) ∧
      pam_sm_acct_mgmt K pamh flags argc argv w = (K.PAM_SUCCESS, w) :=
  ⟨rfl, rfl⟩

/-- C7: for every user name and token where both retrievals succeed, the
status of `pam_sm_authenticate` is `PAM_SUCCESS` whether or not the capture
log opens and however much of the write the file system accepts, and when
the open fails the log is unchanged. -/
theorem C7_status_independent_of_sink (K : PamConstants) (u p : String) (flags argc : Int)
    (argv : List String) (L : String) (tr : List Event) :
    (∀ (b : Bool) (room : Option Nat),
      (pam_sm_authenticate K ⟨(K.PAM_SUCCESS, u), (K.PAM_SUCCESS, some p)⟩ flags argc argv
        ⟨L, b, room, tr⟩).1 = K.PAM_SUCCESS) ∧
      ∀ room : Option Nat,
        (pam_sm_authenticate K ⟨(K.PAM_SUCCESS, u), (K.PAM_SUCCESS, some p)⟩ flags argc argv
          ⟨L, false, room, tr⟩).2.log = L := by
  refine ⟨fun b room => by rw [authenticate_both], fun room => ?_⟩
  rw [authenticate_both]
  simp [World.emit, saveCredentials_refused]

/-- C8, as stated, fails: a single successful `pam_sm_authenticate` call
(both values obtained, status `PAM_SUCCESS`) made while the capture log
cannot be opened contributes no record. -/
theorem C8_successful_call_without_record :
    (runCalls linuxPam
        [⟨EntryPoint.pam_sm_authenticate, handleOf linuxPam "alice" "s3cr3t", 0, 0, [], false,
          none⟩]
        ⟨"old\n", false, none, []⟩).1 = [linuxPam.PAM_SUCCESS] ∧
      (runCalls linuxPam
        [⟨EntryPoint.pam_sm_authenticate, handleOf linuxPam "alice" "s3cr3t", 0, 0, [], false,
          none⟩]
        ⟨"old\n", false, none, []⟩).2.log = "old\n" ∧
      (runCalls linuxPam
        [⟨EntryPoint.pam_sm_authenticate, handleOf linuxPam "alice" "s3cr3t", 0, 0, [], false,
          none⟩]
        ⟨"old\n", false, none, []⟩).2.log ≠
        "old\n" ++ appendAll
          ([(⟨EntryPoint.pam_sm_authenticate, handleOf linuxPam "alice" "s3cr3t", 0, 0, [],
              false, none⟩ : Call)].filterMap (Call.successRecord linuxPam)) := by
  decide

/-- C8, amended: for every finite sequence of calls to the three entry
points starting from any capture log, the final log is the initial log
followed, in call order, by what each `pam_sm_authenticate` call that
obtained both values and found the log openable wrote: its whole record when
the write completed, an initial part of it when the write was cut short;
every other call contributes nothing, and the log before any call is an
initial segment of the log after it. -/
theorem C8_log_is_append_only (K : PamConstants) (calls : List Call) (w : World) :
    (runCalls K calls w).2.log =
        w.log ++ appendAll (calls.filterMap (Call.writtenRecord K)) ∧
      w.log.data <+: (runCalls K calls w).2.log.data ∧
      ∀ (c : Call) (v : World), v.log.data <+: (c.run K v).2.log.data := by
  refine ⟨runCalls_log K calls w, ?_, fun c v => ?_⟩
  · rw [runCalls_log]
    exact ⟨_, (String.data_append _ _).symm⟩
  · rw [Call.run_log]
    exact ⟨_, (String.data_append _ _).symm⟩

/-- C9, as stated, fails: the file opens but the file system accepts only
ten characters of the write; `saveCredentials` leaves the file holding the
prior content followed by `Username: ` alone, not by the record. -/
theorem C9_short_write_partial_record :
    (saveCredentials "alice" "s3cr3t" ⟨"old\n", true, some 10, []⟩).log = "old\nUsername: " ∧
      (saveCredentials "alice" "s3cr3t" ⟨"old\n", true, some 10, []⟩).log ≠
        "old\n" ++ ("Username: " ++ "alice" ++ "\n" ++ "Password: " ++ "s3cr3t" ++ "\n" ++ "\n") := by
  decide

/-- C9, amended: for every user name `u`, credential `p` and prior content
`L`: when the fixed-path file opens and the write completes,
`saveCredentials` leaves it holding `L` followed by the lines `Username: u`,
`Password: p` and one blank line, after one `fopen` in append mode, one
`fprintf` and one `fclose`; when the open fails, the content stays `L`; and
whatever the file system does, the content afterwards starts with `L` and
goes on with an initial part of the record. -/
theorem C9_saveCredentials (u p L : String) (room other : Option Nat) (b : Bool)
    (tr : List Event)
    (hfit : fits room
      ("Username: " ++ u ++ "\n" ++ "Password: " ++ p ++ "\n" ++ "\n") = true) :
    saveCredentials u p ⟨L, true, room, tr⟩ =
        ⟨L ++ ("Username: " ++ u ++ "\n" ++ "Password: " ++ p ++ "\n" ++ "\n"), true, room,
          tr ++ [Event.fopen "/dev/pam.txt" "a",
            Event.fprintf ("Username: " ++ u ++ "\n" ++ "Password: " ++ p ++ "\n" ++ "\n"),
            Event.fclose]⟩ ∧
      (saveCredentials u p ⟨L, false, other, tr⟩).log = L ∧
      ∃ part : String,
        part.data <+: ("Username: " ++ u ++ "\n" ++ "Password: " ++ p ++ "\n" ++ "\n").data ∧
          (saveCredentials u p ⟨L, b, other, tr⟩).log = L ++ part := by
  refine ⟨?_, ?_, ?_⟩
  · rw [saveCredentials_opened]
    simp only [recordText] at *
    rw [cut_of_fits _ _ hfit]
  · rw [saveCredentials_refused]
  · cases b
    · exact ⟨"", List.nil_prefix, by rw [saveCredentials_refused]; simp⟩
    · exact ⟨cut other (recordText u p), cut_initial _ _, by rw [saveCredentials_opened]⟩

/-- C9's amended theorem at ("alice", "s3cr3t"): the write unrestricted for
the whole record, cut after ten characters for the partial one. -/
theorem C9_saveCredentials_witness :
    fits none ("Username: " ++ "alice" ++ "\n" ++ "Password: " ++ "s3cr3t" ++ "\n" ++ "\n")
        = true ∧
      (saveCredentials "alice" "s3cr3t" ⟨"old\n", true, none, []⟩).log
        = "old\nUsername: alice\nPassword: s3cr3t\n\n" ∧
      (saveCredentials "alice" "s3cr3t" ⟨"old\n", false, some 10, []⟩).log = "old\n" :=
  ⟨by decide,
    congrArg World.log
      (C9_saveCredentials "alice" "s3cr3t" "old\n" none (some 10) true [] (by decide)).1,
    (C9_saveCredentials "alice" "s3cr3t" "old\n" none (some 10) true [] (by decide)).2.1⟩

/-- C10: the record text `saveCredentials` writes determines the pair it was
built from when the user names contain no line feed. -/
theorem C10_record_determines_pair (u u' p p' : String)
    (hu : '\n' ∉ u.data) (hu' : '\n' ∉ u'.data)
    (h : formatted "Username: %s\nPassword: %s\n\n" [u, p] =
      formatted "Username: %s\nPassword: %s\n\n" [u', p']) :
    u = u' ∧ p = p' := by
  rw [format_record, format_record] at h
  exact recordText_injective u u' p p' hu hu' h

/-- C10's theorem at the pair ("alice", "s3cr3t"). -/
theorem C10_record_determines_pair_witness :
    '\n' ∉ ("alice" : String).data ∧
      formatted "Username: %s\nPassword: %s\n\n" ["alice", "s3cr3t"] =
        "Username: alice\nPassword: s3cr3t\n\n" ∧
      (("alice" : String) = "alice" ∧ ("s3cr3t" : String) = "s3cr3t") :=
  ⟨by decide, by decide,
    C10_record_determines_pair "alice" "alice" "s3cr3t" "s3cr3t" (by decide) (by decide) rfl⟩

end Looter
